import Mathlib

/-!
Shallow embedding of the shipment-service workflow core
(`shipment/models.py`, `shipment/serializers.py`, `shipment/views.py`,
`shipment/rabbitmq_publisher.py`, `shipment/management/rabbitmq_consumer.py`).

Machine integers are modelled as `Int`/`Nat`, timestamps as `Nat`,
decimal weights as `Int`.  Database rows are records, the database is a
record of lists, and every operation is an explicit state transformer.
-/

namespace ShipmentSvc

/-- The shipment status enum (`Shipment.STATUS_CHOICES` in `models.py`). -/
inductive Status where
  | PENDING
  | PICKED_UP
  | IN_TRANSIT
  | OUT_FOR_DELIVERY
  | DELIVERED
  | CANCELLED
  | FAILED
deriving DecidableEq, Repr, Fintype

/-- String value of a status, as stored by Django / interpolated into
f-strings such as the default history description. -/
def statusStr : Status → String
  | .PENDING => "PENDING"
  | .PICKED_UP => "PICKED_UP"
  | .IN_TRANSIT => "IN_TRANSIT"
  | .OUT_FOR_DELIVERY => "OUT_FOR_DELIVERY"
  | .DELIVERED => "DELIVERED"
  | .CANCELLED => "CANCELLED"
  | .FAILED => "FAILED"

/-- The `valid_transitions` dict of
`ShipmentUpdateSerializer.validate_status` (`serializers.py`). -/
def validTransitions : Status → List Status
  | .PENDING => [.PICKED_UP, .CANCELLED]
  | .PICKED_UP => [.IN_TRANSIT, .CANCELLED]
  | .IN_TRANSIT => [.OUT_FOR_DELIVERY, .FAILED]
  | .OUT_FOR_DELIVERY => [.DELIVERED, .FAILED]
  | .DELIVERED => []
  | .CANCELLED => []
  | .FAILED => [.IN_TRANSIT]

/-- `ShipmentUpdateSerializer.validate_status` (`serializers.py`): the
serializer raises a `ValidationError` exactly when
`value != current_status and value not in valid_transitions.get(current_status, [])`;
`true` here means the requested status is accepted. -/
def validate_status (current value : Status) : Bool :=
  if value ≠ current ∧ value ∉ validTransitions current then false else true

/-- A persisted `Shipment` row (`models.py`).  `id` is the primary key,
timestamps are `Nat` clock readings, `actual_weight` an integer scaling of
the decimal column. -/
structure Shipment where
  id : Nat
  order_id : Int
  tracking_no : String
  carrier : String
  status : Status
  shipped_at : Option Nat
  delivered_at : Option Nat
  created_at : Nat
  shipping_address : String
  estimated_delivery : Option Nat
  actual_weight : Option Int
  notes : String
deriving DecidableEq, Repr

/-- `Shipment.save` (`models.py`): auto-sets `shipped_at` when the status
is `PICKED_UP`/`IN_TRANSIT` and it is still null, and `delivered_at` when
the status is `DELIVERED` and it is still null; `now` is `timezone.now()`. -/
def Shipment.save (now : Nat) (s : Shipment) : Shipment :=
  let s1 :=
    if (s.status == Status.PICKED_UP || s.status == Status.IN_TRANSIT)
        && s.shipped_at.isNone then
      { s with shipped_at := some now }
    else s
  if (s1.status == Status.DELIVERED) && s1.delivered_at.isNone then
    { s1 with delivered_at := some now }
  else s1

/-- A `ShipmentHistory` row (`models.py`), minus the auto timestamp. -/
structure HistoryRow where
  shipment_id : Nat
  status : Status
  location : String
  description : String
deriving DecidableEq, Repr

/-- The deserialized body of an update / partial-update request.  The
first five fields are `ShipmentUpdateSerializer.Meta.fields` (plus the two
write-only extras); the remaining fields are data a client may submit but
that the serializer does not declare, so they are never read. -/
structure UpdateRequest where
  status : Option Status
  location : Option String
  description : Option String
  notes : Option String
  actual_weight : Option Int
  req_order_id : Option Int
  req_tracking_no : Option String
  req_carrier : Option String
  req_shipped_at : Option Nat
  req_delivered_at : Option Nat
  req_created_at : Option Nat
deriving DecidableEq, Repr

/-- Serializer validation of an update request: `validate_status` runs on
the `status` field when it is supplied (`serializers.py`). -/
def validateUpdate (s : Shipment) (r : UpdateRequest) : Bool :=
  match r.status with
  | none => true
  | some v => validate_status s.status v

/-- `ShipmentUpdateSerializer.update` (`serializers.py`): pops the
write-only `location`/`description`, applies the writable fields, runs
`Shipment.save`, and creates one history row iff the status changed.
The Python `location or ''` and `description or default` treat both
`None` and the empty string as absent. -/
def applyUpdate (now : Nat) (s : Shipment) (r : UpdateRequest) :
    Shipment × List HistoryRow :=
  let s1 : Shipment :=
    { s with
      status := r.status.getD s.status
      notes := r.notes.getD s.notes
      actual_weight :=
        match r.actual_weight with
        | none => s.actual_weight
        | some w => some w }
  let s2 := Shipment.save now s1
  let rows : List HistoryRow :=
    if s.status ≠ s2.status then
      [{ shipment_id := s.id
         status := s2.status
         location := r.location.getD ""
         description :=
           match r.description with
           | none => "Status updated to " ++ statusStr s2.status
           | some d =>
               if d = "" then "Status updated to " ++ statusStr s2.status
               else d }]
    else []
  (s2, rows)

/-- The status-specific routing key branch of
`ShipmentViewSet._publish_status_event` (`views.py`); `PENDING` has no
branch there. -/
def specificEvents : Status → List String
  | .PENDING => []
  | .PICKED_UP => ["shipment.picked_up"]
  | .IN_TRANSIT => ["shipment.in_transit"]
  | .OUT_FOR_DELIVERY => ["shipment.out_for_delivery"]
  | .DELIVERED => ["shipment.delivered"]
  | .CANCELLED => ["shipment.cancelled"]
  | .FAILED => ["shipment.failed"]

/-- All routing keys `_publish_status_event` emits for a new status: the
specific one followed by the always-emitted `shipment.status_updated`. -/
def statusChangeEvents (st : Status) : List String :=
  specificEvents st ++ ["shipment.status_updated"]

/-- `ShipmentViewSet.update` / `partial_update` (`views.py`) restricted to
one shipment: validation failure returns `none` (HTTP 400, no mutation);
otherwise the serializer updates the row and the view publishes the
status events iff the status changed.  The returned list is the routing
keys published, in order. -/
def viewUpdate (now : Nat) (s : Shipment) (r : UpdateRequest) :
    Option (Shipment × List HistoryRow × List String) :=
  if validateUpdate s r then
    let res := applyUpdate now s r
    some (res.1, res.2,
      if s.status ≠ res.1.status then statusChangeEvents res.1.status else [])
  else none

/-- The database state visible to the operations: shipment rows, history
rows (newest first, as appended), and the next auto-increment key. -/
structure Db where
  shipments : List Shipment
  history : List HistoryRow
  nextId : Nat
deriving DecidableEq, Repr

/-- `f"TRK{n}"` — the tracking number built from one `random.randint(1000, 9999)` draw. -/
def trkOf (n : Nat) : String := "TRK" ++ toString n

/-- The tracking-number allocation loop of `ShipmentCreateSerializer.create`
and `handle_order_confirmed`: draw, and while the drawn number is already
used, draw again.  `draws` is the stream of `random.randint` results
consumed so far; `none` means the loop is still running after consuming
every supplied draw (the code has no retry cap and no failure outcome). -/
def allocate_tracking (used : String → Bool) : List Nat → Option String
  | [] => none
  | n :: rest =>
      if used (trkOf n) then allocate_tracking used rest else some (trkOf n)

/-- Outcome of the broker interactions one publish call can attempt:
whether (re)connecting would succeed and whether `basic_publish` would
succeed rather than raise. -/
structure BrokerOutcome where
  connectOk : Bool
  publishOk : Bool
deriving DecidableEq, Repr

/-- The error a publish attempt can produce before the `try/except` of
`RabbitMQPublisher.publish` catches it. -/
inductive PubError where
  | connectionFailed
  | publishFailed
deriving DecidableEq, Repr

/-- The body of `RabbitMQPublisher.publish` (`rabbitmq_publisher.py`)
before exception handling: if the connection is absent/closed and cannot
be re-established the call fails; otherwise `basic_publish` may raise. -/
def publishAttempt (connOpen : Bool) (bo : BrokerOutcome) :
    Except PubError Unit :=
  if !connOpen && !bo.connectOk then Except.error PubError.connectionFailed
  else if !bo.publishOk then Except.error PubError.publishFailed
  else Except.ok ()

/-- `RabbitMQPublisher.publish`: the whole body is wrapped in
`try/except`, so every failure becomes a `False` return value and nothing
propagates to the caller; success returns `True`. -/
def publish (connOpen : Bool) (bo : BrokerOutcome) : Bool :=
  match publishAttempt connOpen bo with
  | Except.ok _ => true
  | Except.error _ => false

/-- `publish_event` (`rabbitmq_publisher.py`): when
`settings.RABBITMQ_ENABLED` is false it returns `False` immediately;
otherwise it delegates to the singleton publisher.  The second component
records whether the broker was contacted at all. -/
def publish_event (enabled connOpen : Bool) (bo : BrokerOutcome) :
    Bool × Bool :=
  if !enabled then (false, false)
  else (publish connOpen bo, true)

/-- Acknowledgement outcome a consumer handler sends for a message. -/
inductive Ack where
  | ack
  | nackRequeue
deriving DecidableEq, Repr

/-- The `status__in=['PENDING', 'PICKED_UP', 'IN_TRANSIT']` filter used by
both consumer handlers (`rabbitmq_consumer.py`). -/
def isActiveStatus (st : Status) : Bool :=
  st == Status.PENDING || st == Status.PICKED_UP || st == Status.IN_TRANSIT

/-- The terminal states of the state machine (`DELIVERED`, `CANCELLED`). -/
def isTerminal (st : Status) : Bool :=
  st == Status.DELIVERED || st == Status.CANCELLED

/-- `handle_order_confirmed` (`rabbitmq_consumer.py`): if a shipment for
the order exists in `PENDING`/`PICKED_UP`/`IN_TRANSIT`, ack and stop;
otherwise allocate a tracking number (the loop), create a `PENDING`
shipment with carrier `DHL`, publish `shipment.created` (result ignored),
and ack.  `none` means the allocation loop did not finish on the supplied
draws.  The event list pairs each routing key published with the value
`publish_event` returned for it. -/
def handle_order_confirmed (enabled connOpen : Bool) (bo : BrokerOutcome)
    (db : Db) (oid : Int) (addr : String) (draws : List Nat) (now : Nat) :
    Option (Db × List (String × Bool) × Ack) :=
  if db.shipments.any (fun s => s.order_id == oid && isActiveStatus s.status) then
    some (db, [], Ack.ack)
  else
    match allocate_tracking
        (fun t => db.shipments.any (fun s => s.tracking_no == t)) draws with
    | none => none
    | some trk =>
        let sh := Shipment.save now
          { id := db.nextId, order_id := oid, tracking_no := trk,
            carrier := "DHL", status := Status.PENDING, shipped_at := none,
            delivered_at := none, created_at := now, shipping_address := addr,
            estimated_delivery := none, actual_weight := none, notes := "" }
        some ({ db with shipments := db.shipments ++ [sh], nextId := db.nextId + 1 },
          [("shipment.created", (publish_event enabled connOpen bo).1)], Ack.ack)

/-- The per-shipment body of the loop in `handle_order_cancelled`: a
shipment of the order in an active status gets `status = 'CANCELLED'`
assigned directly (no serializer, no `validate_status`) and saved; every
other shipment is untouched. -/
def cancelStep (now : Nat) (oid : Int) (s : Shipment) : Shipment :=
  if s.order_id == oid && isActiveStatus s.status then
    Shipment.save now { s with status := Status.CANCELLED }
  else s

/-- `handle_order_cancelled` (`rabbitmq_consumer.py`): cancel every
shipment of the order in `PENDING`/`PICKED_UP`/`IN_TRANSIT`, publish one
`shipment.cancelled` per cancelled shipment, create no history rows, and
ack. -/
def handle_order_cancelled (enabled connOpen : Bool) (bo : BrokerOutcome)
    (db : Db) (oid : Int) (now : Nat) : Db × List (String × Bool) × Ack :=
  ({ db with shipments := db.shipments.map (cancelStep now oid) },
   (db.shipments.filter
       (fun s => s.order_id == oid && isActiveStatus s.status)).map
     (fun _ => ("shipment.cancelled", (publish_event enabled connOpen bo).1)),
   Ack.ack)

/-- The update endpoint at the database level (`ShipmentViewSet.update`):
look up the shipment; on validation failure (HTTP 400) or a missing row
the database is unchanged and nothing is published; on success the row is
replaced, the new history rows are prepended, and the status events are
published. -/
def apiUpdateDb (enabled connOpen : Bool) (bo : BrokerOutcome) (now : Nat)
    (db : Db) (sid : Nat) (r : UpdateRequest) : Db × List (String × Bool) :=
  match db.shipments.find? (fun s => s.id == sid) with
  | none => (db, [])
  | some s =>
      match viewUpdate now s r with
      | none => (db, [])
      | some res =>
          ({ db with
             shipments := db.shipments.map (fun t => if t.id == sid then res.1 else t)
             history := res.2.1 ++ db.history },
           res.2.2.map (fun e => (e, (publish_event enabled connOpen bo).1)))

/-- One operation that can mutate a given shipment row after creation:
an API update / partial-update request, or the consumer's cancellation
applied to this row (which fires only when the row is in an active
status). -/
inductive Op where
  | api (r : UpdateRequest) (now : Nat)
  | cancel (now : Nat)
deriving Repr

/-- Effect of one operation on one shipment row (rejected API updates
leave the row unchanged; the consumer's cancellation only touches active
rows). -/
def step (s : Shipment) : Op → Shipment
  | Op.api r now =>
      match viewUpdate now s r with
      | some res => res.1
      | none => s
  | Op.cancel now =>
      if isActiveStatus s.status then
        Shipment.save now { s with status := Status.CANCELLED }
      else s

/-- Run a sequence of operations on one shipment row. -/
def run (s : Shipment) : List Op → Shipment
  | [] => s
  | op :: rest => run (step s op) rest

/-- `PICKED_UP` or `IN_TRANSIT` — the statuses whose save auto-sets
`shipped_at`. -/
def shippedState (st : Status) : Bool :=
  st == Status.PICKED_UP || st == Status.IN_TRANSIT

/-- Whether, along the run, the shipment's status is ever `PICKED_UP` or
`IN_TRANSIT` after some operation. -/
def everShipped (s : Shipment) : List Op → Bool
  | [] => false
  | op :: rest => shippedState (step s op).status || everShipped (step s op) rest

/-- Whether, along the run, the shipment's status is ever `DELIVERED`
after some operation. -/
def everDelivered (s : Shipment) : List Op → Bool
  | [] => false
  | op :: rest =>
      ((step s op).status == Status.DELIVERED) || everDelivered (step s op) rest

/-- Claim C1: the status-transition validation applied when updating a
shipment accepts a requested status `t` from current status `f` iff `t`
is in the transition table entry for `f` or `t = f`; the table is exactly
PENDING→{PICKED_UP, CANCELLED}, PICKED_UP→{IN_TRANSIT, CANCELLED},
IN_TRANSIT→{OUT_FOR_DELIVERY, FAILED}, OUT_FOR_DELIVERY→{DELIVERED,
FAILED}, FAILED→{IN_TRANSIT}, DELIVERED→{}, CANCELLED→{}; and from the
terminal states DELIVERED and CANCELLED every different requested status
is rejected. -/
theorem transition_validation_iff (f t : Status) :
    (validate_status f t = true ↔ (t ∈ validTransitions f ∨ t = f)) ∧
    ((f = Status.DELIVERED ∨ f = Status.CANCELLED) → t ≠ f →
      validate_status f t = false) ∧
    (validTransitions Status.PENDING = [Status.PICKED_UP, Status.CANCELLED] ∧
     validTransitions Status.PICKED_UP = [Status.IN_TRANSIT, Status.CANCELLED] ∧
     validTransitions Status.IN_TRANSIT = [Status.OUT_FOR_DELIVERY, Status.FAILED] ∧
     validTransitions Status.OUT_FOR_DELIVERY = [Status.DELIVERED, Status.FAILED] ∧
     validTransitions Status.FAILED = [Status.IN_TRANSIT] ∧
     validTransitions Status.DELIVERED = [] ∧
     validTransitions Status.CANCELLED = []) := by
  revert f t
  decide

/-- Witness for C1: a concrete accepted pair and the two terminal-state
rejections at concrete requested statuses. -/
theorem transition_validation_iff_witness :
    validate_status Status.PENDING Status.PICKED_UP = true ∧
    validate_status Status.DELIVERED Status.PICKED_UP = false ∧
    validate_status Status.CANCELLED Status.PENDING = false :=
  ⟨(transition_validation_iff Status.PENDING Status.PICKED_UP).1.mpr
      (Or.inl (by decide)),
   (transition_validation_iff Status.DELIVERED Status.PICKED_UP).2.1
      (Or.inl rfl) (by decide),
   (transition_validation_iff Status.CANCELLED Status.PENDING).2.1
      (Or.inr rfl) (by decide)⟩

/-- Counterexample to claim C9: with publishing disabled, `publish_event`
returns `false` — but `false` is exactly what `publish` returns on a
failed publish, while a successful publish returns `true`; the disabled
no-op therefore reports the failure-like value, not a success-like one. -/
theorem disabled_publish_counterexample :
    publish_event false true ⟨true, true⟩ = (false, false) ∧
    publish true ⟨true, true⟩ = true ∧
    publish true ⟨true, false⟩ = false := by
  decide

/-- Claim C9 (amended): when publishing is globally disabled, every call
to `publish_event` is an immediate no-op that does not contact the broker,
but it returns `False` — the same value `publish` returns on failure —
rather than a success-like status. -/
theorem disabled_publish_noop (connOpen : Bool) (bo : BrokerOutcome) :
    publish_event false connOpen bo = (false, false) ∧
    publish connOpen { bo with publishOk := false } = false := by
  cases connOpen <;> cases bo with
  | mk co po => cases co <;> cases po <;>
      simp [publish_event, publish, publishAttempt]

/-- Claim C7: `RabbitMQPublisher.publish` catches every broker failure
and turns it into a `False` return value (it succeeds with `True` exactly
when the underlying attempt succeeds), so a publish failure cannot raise
into a consumer handler: `handle_order_confirmed` acknowledges whenever
its business mutation completed (its result is `some`), its database
effect, routing keys and acknowledgement are independent of the broker
outcome, and `handle_order_cancelled` always acknowledges — shown also at
a concrete input where the publish itself fails. -/
theorem publish_failure_still_acks (connOpen enabled : Bool)
    (bo bo' : BrokerOutcome) (c c' : Bool) (db : Db) (oid : Int)
    (addr : String) (draws : List Nat) (now : Nat) :
    (publish connOpen bo = true ↔ publishAttempt connOpen bo = Except.ok ()) ∧
    (Option.all (fun res => res.2.2 == Ack.ack)
        (handle_order_confirmed enabled c bo db oid addr draws now) = true) ∧
    ((handle_order_confirmed enabled c bo db oid addr draws now).map
        (fun res => (res.1, res.2.1.map Prod.fst, res.2.2))
      = (handle_order_confirmed enabled c' bo' db oid addr draws now).map
        (fun res => (res.1, res.2.1.map Prod.fst, res.2.2))) ∧
    ((handle_order_cancelled enabled c bo db oid now).2.2 = Ack.ack) ∧
    ((handle_order_confirmed true true ⟨true, false⟩ ⟨[], [], 0⟩ 1 "a" [1234] 0).map
        (fun res => res.2.2) = some Ack.ack ∧
      publish true ⟨true, false⟩ = false) := by
  refine ⟨?_, ?_, ?_, rfl, by decide, by decide⟩
  · cases connOpen <;> cases bo with
    | mk co po => cases co <;> cases po <;>
        simp [publish, publishAttempt]
  · unfold handle_order_confirmed
    split
    · rfl
    · cases allocate_tracking
        (fun t => db.shipments.any (fun s => s.tracking_no == t)) draws <;> rfl
  · unfold handle_order_confirmed
    split
    · rfl
    · cases allocate_tracking
        (fun t => db.shipments.any (fun s => s.tracking_no == t)) draws <;> rfl

/-- Claim C6 (code bug): the tracking-number allocation loop of
`ShipmentCreateSerializer.create` / `handle_order_confirmed` has no retry
cap and no `AllocationExhausted` outcome: when every 4-digit suffix in the
`random.randint(1000, 9999)` range is already in use, the loop never
terminates — after consuming any number of random draws (all necessarily
in that range) it has neither produced a value nor surfaced an error. -/
theorem allocation_exhausted_loops_forever (used : String → Bool)
    (draws : List Nat)
    (hused : ∀ n : Nat, 1000 ≤ n → n ≤ 9999 → used (trkOf n) = true)
    (hdraws : ∀ n ∈ draws, 1000 ≤ n ∧ n ≤ 9999) :
    allocate_tracking used draws = none := by
  induction draws with
  | nil => rfl
  | cons a l ih =>
      obtain ⟨h1, h2⟩ := hdraws a (List.mem_cons_self a l)
      rw [allocate_tracking, hused a h1 h2, if_pos rfl]
      exact ih fun n hn => hdraws n (List.mem_cons_of_mem a hn)

/-- Witness for C6: with every tracking number in use, fifty draws (the
retry cap the specification suggests) leave the loop still running. -/
theorem allocation_exhausted_loops_forever_witness :
    allocate_tracking (fun _ => true) (List.replicate 50 1000) = none :=
  allocation_exhausted_loops_forever (fun _ => true) (List.replicate 50 1000)
    (fun _ _ _ => rfl)
    (by decide)

/-- Mapping a function that fixes every element of a list is the
identity. -/
lemma map_id_of_fixed {α : Type _} (l : List α) (f : α → α)
    (h : ∀ a ∈ l, f a = a) : l.map f = l := by
  induction l with
  | nil => rfl
  | cons a t ih =>
      rw [List.map_cons, h a (List.mem_cons_self a t),
        ih fun b hb => h b (List.mem_cons_of_mem a hb)]

/-- Mapping a constant function yields a replicate of the list's length. -/
lemma map_const_replicate {α β : Type _} (l : List α) (b : β) :
    l.map (fun _ => b) = List.replicate l.length b := by
  induction l with
  | nil => rfl
  | cons a t ih => simp [List.replicate_succ, ih]

/-- A filter whose predicate fails on every element is empty. -/
lemma filter_nil_of_none {α : Type _} (l : List α) (p : α → Bool)
    (h : ∀ a ∈ l, p a = false) : l.filter p = [] := by
  induction l with
  | nil => rfl
  | cons a t ih =>
      rw [List.filter_cons, h a (List.mem_cons_self a t)]
      simpa using ih fun b hb => h b (List.mem_cons_of_mem a hb)

/-- A shipment stuck at `OUT_FOR_DELIVERY` — a non-terminal status the
consumer's duplicate check does not cover. -/
def shipOutForDelivery : Shipment :=
  { id := 1, order_id := 42, tracking_no := "TRK2222", carrier := "DHL",
    status := Status.OUT_FOR_DELIVERY, shipped_at := some 1,
    delivered_at := none, created_at := 0, shipping_address := "",
    estimated_delivery := none, actual_weight := none, notes := "" }

/-- Counterexample to claim C2: order 42 already has a shipment in the
non-terminal status `OUT_FOR_DELIVERY`, yet `handle_order_confirmed`
creates a second shipment (and allocates a tracking number) instead of
returning the existing one as a no-op: afterwards order 42 has two
shipment rows. -/
theorem confirm_nonterminal_counterexample :
    isTerminal Status.OUT_FOR_DELIVERY = false ∧
    Option.map
      (fun res =>
        ((res.1.shipments.filter (fun s => s.order_id == (42 : Int))).length,
          res.2.2))
      (handle_order_confirmed true true ⟨true, true⟩
        { shipments := [shipOutForDelivery], history := [], nextId := 2 }
        42 "addr" [1000] 7)
      = some (2, Ack.ack) := by
  decide

/-- Claim C2 (amended): for every order that already has a shipment in
`PENDING`, `PICKED_UP` or `IN_TRANSIT` (the statuses the handler actually
checks — a shipment in the non-terminal statuses `OUT_FOR_DELIVERY` or
`FAILED` does not block creation), `handle_order_confirmed` creates no
shipment and allocates no tracking number: the database is returned
unchanged with no events.  After any successful call, an immediately
repeated call is such a no-op, and starting from an order with no
shipments the two calls together leave exactly one shipment row for it. -/
theorem confirm_active_idempotent (enabled c : Bool) (bo : BrokerOutcome)
    (db : Db) (oid : Int) (a a' : String) (d d' : List Nat) (n n' : Nat) :
    ((∃ s ∈ db.shipments, s.order_id = oid ∧ isActiveStatus s.status = true) →
      handle_order_confirmed enabled c bo db oid a d n = some (db, [], Ack.ack)) ∧
    (∀ db1 evs ak,
      handle_order_confirmed enabled c bo db oid a d n = some (db1, evs, ak) →
      handle_order_confirmed enabled c bo db1 oid a' d' n' = some (db1, [], Ack.ack) ∧
      ((db.shipments.filter (fun s => s.order_id == oid)).length = 0 →
        (db1.shipments.filter (fun s => s.order_id == oid)).length = 1)) := by
  have hany : ∀ l : List Shipment,
      (∃ s ∈ l, s.order_id = oid ∧ isActiveStatus s.status = true) →
      l.any (fun s => s.order_id == oid && isActiveStatus s.status) = true := by
    rintro l ⟨s, hs, h1, h2⟩
    exact List.any_eq_true.mpr ⟨s, hs, by simp [h1, h2]⟩
  constructor
  · intro hex
    unfold handle_order_confirmed
    rw [if_pos (hany db.shipments hex)]
  · intro db1 evs ak h
    unfold handle_order_confirmed at h
    split at h
    case isTrue hc =>
      obtain ⟨rfl, rfl, rfl⟩ : db = db1 ∧ ([] : List (String × Bool)) = evs ∧
          Ack.ack = ak := by
        simpa using h
      refine ⟨by unfold handle_order_confirmed; rw [if_pos hc], ?_⟩
      intro h0
      exfalso
      rcases List.any_eq_true.mp hc with ⟨s, hs, hp⟩
      rw [Bool.and_eq_true] at hp
      have hmem : s ∈ db.shipments.filter (fun s => s.order_id == oid) :=
        List.mem_filter.mpr ⟨hs, hp.1⟩
      have := List.length_pos.mpr (List.ne_nil_of_mem hmem)
      omega
    case isFalse hc =>
      split at h
      case h_1 => exact absurd h (by simp)
      case h_2 trk htrk =>
        obtain ⟨rfl, rfl, rfl⟩ :
            ({ db with
               shipments := db.shipments ++
                 [Shipment.save n
                   { id := db.nextId, order_id := oid, tracking_no := trk,
                     carrier := "DHL", status := Status.PENDING,
                     shipped_at := none, delivered_at := none, created_at := n,
                     shipping_address := a, estimated_delivery := none,
                     actual_weight := none, notes := "" }],
               nextId := db.nextId + 1 } : Db) = db1 ∧
            [("shipment.created", (publish_event enabled c bo).1)] = evs ∧
            Ack.ack = ak := by
          simpa using h
        have hsave : Shipment.save n
            { id := db.nextId, order_id := oid, tracking_no := trk,
              carrier := "DHL", status := Status.PENDING, shipped_at := none,
              delivered_at := none, created_at := n, shipping_address := a,
              estimated_delivery := none, actual_weight := none, notes := "" }
            = { id := db.nextId, order_id := oid, tracking_no := trk,
                carrier := "DHL", status := Status.PENDING, shipped_at := none,
                delivered_at := none, created_at := n, shipping_address := a,
                estimated_delivery := none, actual_weight := none,
                notes := "" } := by
          simp [Shipment.save]
        constructor
        · unfold handle_order_confirmed
          rw [if_pos]
          simp [hsave, isActiveStatus]
        · intro h0
          have hnil : db.shipments.filter (fun s => s.order_id == oid) = [] :=
            List.length_eq_zero.mp h0
          simp [List.filter_append, hnil, hsave]

/-- A `PENDING` shipment for order 42, used as a concrete active row. -/
def shipPending42 : Shipment :=
  { id := 8, order_id := 42, tracking_no := "TRK8888", carrier := "DHL",
    status := Status.PENDING, shipped_at := none, delivered_at := none,
    created_at := 0, shipping_address := "", estimated_delivery := none,
    actual_weight := none, notes := "" }

/-- A database whose only shipment is the active one for order 42. -/
def dbPending42 : Db :=
  { shipments := [shipPending42], history := [], nextId := 9 }

/-- Witness for C2: with an active (`PENDING`) shipment for order 42
already present, the handler is a no-op returning the unchanged database,
no events and an ack. -/
theorem confirm_active_idempotent_witness :
    handle_order_confirmed true true ⟨true, true⟩ dbPending42 42 "x" [1000] 3
      = some (dbPending42, [], Ack.ack) :=
  (confirm_active_idempotent true true ⟨true, true⟩ dbPending42 42 "x" "y"
      [1000] [1001] 3 4).1
    ⟨shipPending42, by decide, by decide, by decide⟩

/-- An `IN_TRANSIT` shipment for order 7 — a status from which the state
machine forbids `CANCELLED`. -/
def shipInTransit : Shipment :=
  { id := 3, order_id := 7, tracking_no := "TRK3333", carrier := "DHL",
    status := Status.IN_TRANSIT, shipped_at := some 1, delivered_at := none,
    created_at := 0, shipping_address := "", estimated_delivery := none,
    actual_weight := none, notes := "" }

/-- Counterexample to claim C3: `handle_order_cancelled` cancels an
`IN_TRANSIT` shipment although `validate_status` rejects
IN_TRANSIT → CANCELLED (so it does not go through the state machine's
validation), and it records no history row for the transition. -/
theorem cancel_counterexample :
    validate_status Status.IN_TRANSIT Status.CANCELLED = false ∧
    ((handle_order_cancelled true true ⟨true, true⟩
        { shipments := [shipInTransit], history := [], nextId := 4 } 7
        9).1.shipments.map (fun s => s.status) = [Status.CANCELLED]) ∧
    ((handle_order_cancelled true true ⟨true, true⟩
        { shipments := [shipInTransit], history := [], nextId := 4 } 7
        9).1.history = []) := by
  decide

/-- Claim C3 (amended): `handle_order_cancelled` finds all shipments of
the order in {PENDING, PICKED_UP, IN_TRANSIT} and sets each directly to
`CANCELLED` by assignment — bypassing `validate_status` (which would
reject IN_TRANSIT → CANCELLED) — records no history rows, and emits one
`shipment.cancelled` event per cancelled shipment with no generic event;
shipments not in those statuses (in particular terminal ones) are left
untouched, and an order with no active shipments is a no-op with no
events; the message is always acknowledged. -/
theorem cancel_handler_behavior (enabled c : Bool) (bo : BrokerOutcome)
    (db : Db) (oid : Int) (now : Nat) :
    ((handle_order_cancelled enabled c bo db oid now).1.history = db.history) ∧
    ((handle_order_cancelled enabled c bo db oid now).1.shipments
        = db.shipments.map (cancelStep now oid)) ∧
    ((handle_order_cancelled enabled c bo db oid now).2.1.map Prod.fst
        = List.replicate
            ((db.shipments.filter
              (fun s => s.order_id == oid && isActiveStatus s.status)).length)
            "shipment.cancelled") ∧
    (∀ s ∈ db.shipments,
      ¬(s.order_id = oid ∧ isActiveStatus s.status = true) →
      cancelStep now oid s = s) ∧
    ((∀ s ∈ db.shipments,
        ¬(s.order_id = oid ∧ isActiveStatus s.status = true)) →
      (handle_order_cancelled enabled c bo db oid now).1 = db ∧
      (handle_order_cancelled enabled c bo db oid now).2.1 = []) ∧
    ((handle_order_cancelled enabled c bo db oid now).2.2 = Ack.ack) := by
  have hfix : ∀ s, ¬(s.order_id = oid ∧ isActiveStatus s.status = true) →
      cancelStep now oid s = s := by
    intro s hns
    unfold cancelStep
    rw [if_neg]
    intro hcond
    rw [Bool.and_eq_true, beq_iff_eq] at hcond
    exact hns ⟨hcond.1, hcond.2⟩
  refine ⟨rfl, rfl, ?_, fun s _ => hfix s, ?_, rfl⟩
  · show (List.map _ (List.filter _ db.shipments)).map Prod.fst = _
    rw [List.map_map]
    exact map_const_replicate _ _
  · intro hall
    have hpred : ∀ s ∈ db.shipments,
        (s.order_id == oid && isActiveStatus s.status) = false := by
      intro s hs
      cases h : (s.order_id == oid && isActiveStatus s.status) with
      | false => rfl
      | true =>
          rw [Bool.and_eq_true, beq_iff_eq] at h
          exact absurd ⟨h.1, h.2⟩ (hall s hs)
    constructor
    · show ({ db with
          shipments := db.shipments.map (cancelStep now oid) } : Db) = db
      rw [map_id_of_fixed _ _ fun s hs =>
        hfix s (hall s hs)]
    · show (List.map _ (List.filter _ db.shipments)) = []
      rw [filter_nil_of_none _ _ hpred]
      rfl

/-- A `DELIVERED` (terminal) shipment for order 42. -/
def shipDelivered : Shipment :=
  { id := 5, order_id := 42, tracking_no := "TRK5555", carrier := "FedEx",
    status := Status.DELIVERED, shipped_at := some 1, delivered_at := some 2,
    created_at := 0, shipping_address := "", estimated_delivery := none,
    actual_weight := none, notes := "" }

/-- A database whose only shipment for order 42 is terminal. -/
def dbDeliveredOnly : Db :=
  { shipments := [shipDelivered], history := [], nextId := 6 }

/-- Witness for C3: on an order whose only shipment is terminal
(`DELIVERED`), the cancellation handler leaves the database untouched and
emits no events. -/
theorem cancel_handler_behavior_witness :
    (handle_order_cancelled true true ⟨true, true⟩ dbDeliveredOnly 42 0).1
        = dbDeliveredOnly ∧
    (handle_order_cancelled true true ⟨true, true⟩ dbDeliveredOnly 42 0).2.1
        = [] :=
  (cancel_handler_behavior true true ⟨true, true⟩ dbDeliveredOnly 42
      0).2.2.2.2.1 (by decide)

/-- `Shipment.save` only ever touches the two timestamp fields. -/
lemma save_frame (now : Nat) (s : Shipment) :
    (Shipment.save now s).status = s.status ∧
    (Shipment.save now s).order_id = s.order_id ∧
    (Shipment.save now s).tracking_no = s.tracking_no ∧
    (Shipment.save now s).carrier = s.carrier ∧
    (Shipment.save now s).created_at = s.created_at ∧
    (Shipment.save now s).notes = s.notes ∧
    (Shipment.save now s).actual_weight = s.actual_weight := by
  simp only [Shipment.save]
  split <;> split <;> exact ⟨rfl, rfl, rfl, rfl, rfl, rfl, rfl⟩

/-- The status after a serializer update is the requested one when
supplied, else unchanged. -/
lemma applyUpdate_status (now : Nat) (s : Shipment) (r : UpdateRequest) :
    (applyUpdate now s r).1.status = r.status.getD s.status := by
  simp only [applyUpdate]
  exact (save_frame now _).1

/-- A serializer update leaves the non-writable identity fields alone. -/
lemma applyUpdate_frame (now : Nat) (s : Shipment) (r : UpdateRequest) :
    (applyUpdate now s r).1.order_id = s.order_id ∧
    (applyUpdate now s r).1.tracking_no = s.tracking_no ∧
    (applyUpdate now s r).1.carrier = s.carrier ∧
    (applyUpdate now s r).1.created_at = s.created_at := by
  simp only [applyUpdate]
  obtain ⟨-, h2, h3, h4, h5, -, -⟩ := save_frame now
    { s with
      status := r.status.getD s.status
      notes := r.notes.getD s.notes
      actual_weight :=
        match r.actual_weight with
        | none => s.actual_weight
        | some w => some w }
  exact ⟨h2, h3, h4, h5⟩

/-- The serializer update produces at most one history row. -/
lemma applyUpdate_rows_le (now : Nat) (s : Shipment) (r : UpdateRequest) :
    (applyUpdate now s r).2.length ≤ 1 := by
  simp only [applyUpdate]
  split <;> simp

/-- Characterization of a successful update-endpoint call. -/
lemma viewUpdate_some (now : Nat) (s : Shipment) (r : UpdateRequest)
    (res : Shipment × List HistoryRow × List String)
    (h : viewUpdate now s r = some res) :
    res.1 = (applyUpdate now s r).1 ∧
    res.2.1 = (applyUpdate now s r).2 ∧
    res.2.2 = (if s.status ≠ (applyUpdate now s r).1.status then
        statusChangeEvents (applyUpdate now s r).1.status else []) ∧
    validateUpdate s r = true := by
  simp only [viewUpdate] at h
  split at h
  case isTrue hv =>
    injection h with h'
    subst h'
    exact ⟨rfl, rfl, rfl, hv⟩
  case isFalse hv => exact absurd h (by simp)

/-- Counterexample to claim C4: `handle_order_cancelled` performs an
accepted-style PENDING → CANCELLED transition (the table allows it) on
the shipment of order 42, yet creates zero `ShipmentHistory` rows — so it
is not the case that every operation that mutates a shipment writes
exactly one history row per accepted transition. -/
theorem history_counterexample :
    validate_status Status.PENDING Status.CANCELLED = true ∧
    ((handle_order_cancelled true true ⟨true, true⟩ dbPending42 42
        1).1.shipments.map (fun s => s.status) = [Status.CANCELLED]) ∧
    ((handle_order_cancelled true true ⟨true, true⟩ dbPending42 42
        1).1.history = []) := by
  decide

/-- Claim C4 (amended): on the API update path, exactly one history row
is created per accepted status change, none when validation rejects the
request or the requested status equals the current one, and repeating the
same update leaves the second call row-less; every operation only ever
prepends at most one new row to the history (rows are never updated or
deleted) — but the `order.cancelled` consumer records no history rows for
the transitions it performs, and shipment creation records none. -/
theorem history_row_accounting (enabled c : Bool) (bo : BrokerOutcome)
    (now now' : Nat) (s : Shipment) (r : UpdateRequest) (db : Db)
    (sid : Nat) (oid : Int) (addr : String) (draws : List Nat) :
    (∀ res, viewUpdate now s r = some res →
      (res.1.status ≠ s.status → res.2.1.length = 1) ∧
      (res.1.status = s.status → res.2.1 = []) ∧
      (∀ res', viewUpdate now' res.1 r = some res' → res'.2.1 = [])) ∧
    (validateUpdate s r = false → viewUpdate now s r = none) ∧
    (∃ new, (apiUpdateDb enabled c bo now db sid r).1.history
        = new ++ db.history ∧ new.length ≤ 1) ∧
    ((handle_order_cancelled enabled c bo db oid now).1.history = db.history) ∧
    (Option.all (fun res => res.1.history == db.history)
      (handle_order_confirmed enabled c bo db oid addr draws now) = true) := by
  refine ⟨?_, ?_, ?_, rfl, ?_⟩
  · intro res hres
    obtain ⟨hr1, hr2, -, -⟩ := viewUpdate_some now s r res hres
    refine ⟨?_, ?_, ?_⟩
    · intro hne
      rw [hr2]
      simp only [applyUpdate]
      rw [if_pos]
      · rfl
      · rw [hr1] at hne
        exact fun hx => hne (by
          simp only [applyUpdate] at hx ⊢
          exact hx.symm)
    · intro heq
      rw [hr2]
      simp only [applyUpdate]
      rw [if_neg]
      rw [hr1] at heq
      simp only [applyUpdate] at heq
      exact fun hx => hx heq.symm
    · intro res' hres'
      obtain ⟨-, hq2, -, -⟩ := viewUpdate_some now' res.1 r res' hres'
      rw [hq2]
      have hst : (applyUpdate now' res.1 r).1.status = res.1.status := by
        rw [applyUpdate_status, hr1, applyUpdate_status]
        cases r.status <;> rfl
      simp only [applyUpdate]
      rw [if_neg]
      simp only [applyUpdate] at hst
      exact fun hx => hx hst.symm
  · intro hv
    simp [viewUpdate, hv]
  · unfold apiUpdateDb
    split
    · exact ⟨[], rfl, by simp⟩
    case h_2 s0 hs0 =>
      split
      · exact ⟨[], rfl, by simp⟩
      case h_2 res hres =>
        obtain ⟨-, hr2, -, -⟩ := viewUpdate_some now s0 r res hres
        exact ⟨res.2.1, rfl, hr2 ▸ applyUpdate_rows_le now s0 r⟩
  · unfold handle_order_confirmed
    split
    · simp
    · cases allocate_tracking
        (fun t => db.shipments.any (fun s => s.tracking_no == t)) draws with
      | none => rfl
      | some trk => simp

/-- The update request that only asks for status `PICKED_UP`. -/
def reqPickedUp : UpdateRequest :=
  { status := some Status.PICKED_UP, location := none, description := none,
    notes := none, actual_weight := none, req_order_id := none,
    req_tracking_no := none, req_carrier := none, req_shipped_at := none,
    req_delivered_at := none, req_created_at := none }

/-- The update request that only asks for status `CANCELLED`. -/
def reqCancelled : UpdateRequest :=
  { reqPickedUp with status := some Status.CANCELLED }

/-- Witness for C4: the concrete accepted PENDING → CANCELLED API update
writes exactly one history row. -/
theorem history_row_accounting_witness :
    viewUpdate 2 shipPending42 reqCancelled
      = some ({ shipPending42 with status := Status.CANCELLED },
          [{ shipment_id := 8, status := Status.CANCELLED, location := "",
             description := "Status updated to CANCELLED" }],
          ["shipment.cancelled", "shipment.status_updated"]) ∧
    ([({ shipment_id := 8, status := Status.CANCELLED, location := "",
         description := "Status updated to CANCELLED" } : HistoryRow)]).length
      = 1 :=
  ⟨by decide,
   ((history_row_accounting true true ⟨true, true⟩ 2 3 shipPending42
        reqCancelled dbPending42 8 42 "" []).1
      ({ shipPending42 with status := Status.CANCELLED },
        [{ shipment_id := 8, status := Status.CANCELLED, location := "",
           description := "Status updated to CANCELLED" }],
        ["shipment.cancelled", "shipment.status_updated"])
      (by decide)).1 (by decide)⟩

/-- Counterexample to claim C8: when the `order.cancelled` consumer
cancels the `PENDING` shipment of order 42 (a transition the table even
allows), the only routing key published is `shipment.cancelled` — the
generic `shipment.status_updated` event is not emitted on that mutation
path. -/
theorem events_counterexample :
    ((handle_order_cancelled true true ⟨true, true⟩ dbPending42 42
        1).1.shipments.map (fun s => s.status) = [Status.CANCELLED]) ∧
    ((handle_order_cancelled true true ⟨true, true⟩ dbPending42 42
        1).2.1.map Prod.fst = ["shipment.cancelled"]) ∧
    ¬ ("shipment.status_updated" ∈
        (handle_order_cancelled true true ⟨true, true⟩ dbPending42 42
          1).2.1.map Prod.fst) := by
  decide

/-- Claim C8 (amended): on the API update path every accepted status
change publishes the status-specific routing key for the new status
(`shipment.picked_up`, `shipment.in_transit`, `shipment.out_for_delivery`,
`shipment.delivered`, `shipment.cancelled`, `shipment.failed`) followed by
the always-added generic `shipment.status_updated`, and an accepted no-op
request publishes nothing — but the cancellation path driven by an
inbound `order.cancelled` event publishes only `shipment.cancelled`
events, never `shipment.status_updated`. -/
theorem events_emitted (enabled c : Bool) (bo : BrokerOutcome) (db : Db)
    (oid : Int) (cnow now : Nat) (s : Shipment) (r : UpdateRequest) :
    (∀ res, viewUpdate now s r = some res → res.1.status ≠ s.status →
      res.2.2 = specificEvents res.1.status ++ ["shipment.status_updated"]) ∧
    (∀ res, viewUpdate now s r = some res → res.1.status = s.status →
      res.2.2 = []) ∧
    (specificEvents Status.PICKED_UP = ["shipment.picked_up"] ∧
     specificEvents Status.IN_TRANSIT = ["shipment.in_transit"] ∧
     specificEvents Status.OUT_FOR_DELIVERY = ["shipment.out_for_delivery"] ∧
     specificEvents Status.DELIVERED = ["shipment.delivered"] ∧
     specificEvents Status.CANCELLED = ["shipment.cancelled"] ∧
     specificEvents Status.FAILED = ["shipment.failed"]) ∧
    ((handle_order_cancelled enabled c bo db oid cnow).2.1.all
        (fun e => e.1 == "shipment.cancelled") = true) := by
  refine ⟨?_, ?_, by decide, ?_⟩
  · intro res hres hne
    obtain ⟨hr1, -, hr3, -⟩ := viewUpdate_some now s r res hres
    rw [hr3, if_pos, ← hr1]
    · rfl
    · rw [hr1] at hne
      exact fun hx => hne hx.symm
  · intro res hres heq
    obtain ⟨hr1, -, hr3, -⟩ := viewUpdate_some now s r res hres
    rw [hr3, if_neg]
    rw [hr1] at heq
    exact fun hx => hx heq.symm
  · show (List.map _ (List.filter _ db.shipments)).all _ = true
    rw [List.all_eq_true]
    intro e he
    rcases List.mem_map.mp he with ⟨x, -, hx⟩
    rw [← hx]
    rfl

/-- Witness for C8: the concrete accepted PENDING → PICKED_UP API update
publishes exactly `shipment.picked_up` followed by
`shipment.status_updated`. -/
theorem events_emitted_witness :
    viewUpdate 5 shipPending42 reqPickedUp
      = some ({ shipPending42 with
                status := Status.PICKED_UP
                shipped_at := some 5 },
          [{ shipment_id := 8, status := Status.PICKED_UP, location := "",
             description := "Status updated to PICKED_UP" }],
          ["shipment.picked_up", "shipment.status_updated"]) ∧
    (["shipment.picked_up", "shipment.status_updated"] : List String)
      = specificEvents Status.PICKED_UP ++ ["shipment.status_updated"] :=
  ⟨by decide,
   (events_emitted true true ⟨true, true⟩ dbPending42 42 0 5 shipPending42
        reqPickedUp).1
     ({ shipPending42 with
         status := Status.PICKED_UP
         shipped_at := some 5 },
       [{ shipment_id := 8, status := Status.PICKED_UP, location := "",
          description := "Status updated to PICKED_UP" }],
       ["shipment.picked_up", "shipment.status_updated"])
     (by decide) (by decide)⟩

/-- Claim C10: for every update or partial-update request on an existing
shipment, the outcome is identical for any two request bodies that agree
on the serializer's declared fields (`status`, `notes`, `actual_weight`
and the write-only `location`, `description`) — whatever the request
supplies for `order_id`, `tracking_no`, `carrier`, `shipped_at`,
`delivered_at` or `created_at` is ignored — and on every successful
update the resulting row keeps the shipment's `order_id`, `tracking_no`,
`carrier` and `created_at` unchanged. -/
theorem update_frame_fields (now : Nat) (s : Shipment) (r r' : UpdateRequest)
    (hs : r.status = r'.status) (hl : r.location = r'.location)
    (hd : r.description = r'.description) (hn : r.notes = r'.notes)
    (hw : r.actual_weight = r'.actual_weight) :
    viewUpdate now s r = viewUpdate now s r' ∧
    (∀ res, viewUpdate now s r = some res →
      res.1.order_id = s.order_id ∧ res.1.tracking_no = s.tracking_no ∧
      res.1.carrier = s.carrier ∧ res.1.created_at = s.created_at) := by
  constructor
  · simp only [viewUpdate, validateUpdate, applyUpdate, hs, hl, hd, hn, hw]
  · intro res hres
    obtain ⟨hr1, -, -, -⟩ := viewUpdate_some now s r res hres
    rw [hr1]
    exact applyUpdate_frame now s r

/-- A request that asks for `PICKED_UP` and also tries to overwrite every
read-only field. -/
def reqMalicious : UpdateRequest :=
  { status := some Status.PICKED_UP, location := none, description := none,
    notes := none, actual_weight := none, req_order_id := some 999,
    req_tracking_no := some "TRK0000", req_carrier := some "DTDC",
    req_shipped_at := some 77, req_delivered_at := some 88,
    req_created_at := some 99 }

/-- Witness for C10: the request smuggling values for every read-only
field produces exactly the same outcome as the clean request, and the
result keeps order 42's identity fields. -/
theorem update_frame_fields_witness :
    viewUpdate 5 shipPending42 reqMalicious
      = viewUpdate 5 shipPending42 reqPickedUp ∧
    viewUpdate 5 shipPending42 reqMalicious
      = some ({ shipPending42 with
                status := Status.PICKED_UP
                shipped_at := some 5 },
          [{ shipment_id := 8, status := Status.PICKED_UP, location := "",
             description := "Status updated to PICKED_UP" }],
          ["shipment.picked_up", "shipment.status_updated"]) ∧
    ({ shipPending42 with
       status := Status.PICKED_UP
       shipped_at := some 5 } : Shipment).order_id = shipPending42.order_id :=
  ⟨(update_frame_fields 5 shipPending42 reqMalicious reqPickedUp rfl rfl rfl
      rfl rfl).1,
   by decide,
   ((update_frame_fields 5 shipPending42 reqMalicious reqPickedUp rfl rfl rfl
        rfl rfl).2
     ({ shipPending42 with
        status := Status.PICKED_UP
        shipped_at := some 5 },
       [{ shipment_id := 8, status := Status.PICKED_UP, location := "",
          description := "Status updated to PICKED_UP" }],
       ["shipment.picked_up", "shipment.status_updated"])
     (by decide)).1⟩

/-- Every status except `PENDING` and `CANCELLED` — the statuses a
shipment can only hold after having been picked up (reachability per the
transition table), so `shipped_at` must already be set. -/
def shippedReach (st : Status) : Bool :=
  st == Status.PICKED_UP || st == Status.IN_TRANSIT ||
  st == Status.OUT_FOR_DELIVERY || st == Status.DELIVERED ||
  st == Status.FAILED

/-- The timestamp coherence invariant every reachable shipment state
satisfies: a status beyond pickup implies `shipped_at` is set, and
`DELIVERED` implies `delivered_at` is set. -/
def tsInv (s : Shipment) : Prop :=
  (shippedReach s.status = true → s.shipped_at.isSome = true) ∧
  (s.status = Status.DELIVERED → s.delivered_at.isSome = true)

/-- `Shipment.save` never overwrites an already-set timestamp. -/
lemma save_keeps_some (now : Nat) (t : Shipment) :
    (∀ v, t.shipped_at = some v → (Shipment.save now t).shipped_at = some v) ∧
    (∀ v, t.delivered_at = some v →
      (Shipment.save now t).delivered_at = some v) := by
  constructor <;> intro v hv <;>
    simp only [Shipment.save] <;>
    split <;> split <;> simp_all

/-- One accepted serializer update keeps the timestamp bookkeeping exact:
afterwards `shipped_at` is set iff it was set before or the new status is
`PICKED_UP`/`IN_TRANSIT`, `delivered_at` is set iff it was set before or
the new status is `DELIVERED`, and the coherence invariant is preserved. -/
lemma applyUpdate_timestamps (now : Nat) (s : Shipment) (r : UpdateRequest)
    (h1 : shippedReach s.status = true → s.shipped_at.isSome = true)
    (h2 : s.status = Status.DELIVERED → s.delivered_at.isSome = true)
    (hv : validateUpdate s r = true) :
    ((applyUpdate now s r).1.shipped_at.isSome
      = (s.shipped_at.isSome || shippedState (applyUpdate now s r).1.status)) ∧
    ((applyUpdate now s r).1.delivered_at.isSome
      = (s.delivered_at.isSome
          || ((applyUpdate now s r).1.status == Status.DELIVERED))) ∧
    tsInv (applyUpdate now s r).1 := by
  unfold tsInv
  cases hrs : r.status with
  | none =>
      cases hsh : s.shipped_at <;> cases hde : s.delivered_at <;>
        cases hst : s.status <;>
          simp_all [applyUpdate, Shipment.save, shippedState, shippedReach,
            validateUpdate]
  | some v =>
      have hval : validate_status s.status v = true := by
        simpa [validateUpdate, hrs] using hv
      cases hsh : s.shipped_at <;> cases hde : s.delivered_at <;>
        cases hst : s.status <;> cases v <;>
          simp_all [applyUpdate, Shipment.save, shippedState, shippedReach,
            validate_status, validTransitions]

/-- One operation keeps the timestamp bookkeeping exact (rejected updates
and skipped cancellations included). -/
lemma step_timestamps (s : Shipment) (op : Op) (h : tsInv s) :
    ((step s op).shipped_at.isSome
      = (s.shipped_at.isSome || shippedState (step s op).status)) ∧
    ((step s op).delivered_at.isSome
      = (s.delivered_at.isSome || ((step s op).status == Status.DELIVERED))) ∧
    tsInv (step s op) := by
  obtain ⟨h1, h2⟩ := h
  have hreach : ∀ st, shippedState st = true → shippedReach st = true := by
    decide
  have hid : ((s.shipped_at.isSome
        = (s.shipped_at.isSome || shippedState s.status)) ∧
      (s.delivered_at.isSome
        = (s.delivered_at.isSome || (s.status == Status.DELIVERED)))) := by
    constructor
    · cases hss : shippedState s.status with
      | false => simp
      | true => simp [h1 (hreach _ hss)]
    · by_cases hdd : s.status = Status.DELIVERED
      · simp [h2 hdd]
      · simp [hdd]
  cases op with
  | api r now =>
      cases hvu : viewUpdate now s r with
      | none =>
          simp only [step, hvu]
          exact ⟨hid.1, hid.2, h1, h2⟩
      | some res =>
          obtain ⟨hr1, -, -, hval⟩ := viewUpdate_some now s r res hvu
          simp only [step, hvu]
          rw [hr1]
          exact applyUpdate_timestamps now s r h1 h2 hval
  | cancel now =>
      simp only [step]
      by_cases ha : isActiveStatus s.status = true
      · rw [if_pos ha]
        have hsave : Shipment.save now { s with status := Status.CANCELLED }
            = { s with status := Status.CANCELLED } := by
          simp [Shipment.save]
        rw [hsave]
        refine ⟨by simp [shippedState], by simp, ?_, ?_⟩
        · intro hr
          exact absurd hr (by simp [shippedReach])
        · intro hd
          exact absurd hd (by simp)
      · rw [if_neg ha]
        exact ⟨hid.1, hid.2, h1, h2⟩

/-- Running any operation sequence from an invariant state: the final
`shipped_at` is set iff it was set initially or some intermediate state
was `PICKED_UP`/`IN_TRANSIT`, likewise `delivered_at` for `DELIVERED`,
and the invariant still holds. -/
lemma run_timestamps (ops : List Op) : ∀ s : Shipment, tsInv s →
    ((run s ops).shipped_at.isSome
      = (s.shipped_at.isSome || everShipped s ops)) ∧
    ((run s ops).delivered_at.isSome
      = (s.delivered_at.isSome || everDelivered s ops)) ∧
    tsInv (run s ops) := by
  induction ops with
  | nil =>
      intro s hs
      exact ⟨by simp [run, everShipped], by simp [run, everDelivered], hs⟩
  | cons op rest ih =>
      intro s hs
      obtain ⟨a1, a2, a3⟩ := step_timestamps s op hs
      obtain ⟨b1, b2, b3⟩ := ih (step s op) a3
      refine ⟨?_, ?_, b3⟩
      · simp only [run, everShipped]
        rw [b1, a1, Bool.or_assoc]
      · simp only [run, everDelivered]
        rw [b2, a2, Bool.or_assoc]

/-- Claim C5: starting from a freshly created shipment (status `PENDING`,
both timestamps null), after any sequence of update/cancellation
operations `shipped_at` is non-null iff the status has ever reached
`PICKED_UP` or `IN_TRANSIT`, and `delivered_at` is non-null iff the
status has ever reached `DELIVERED`; moreover both fields are
append-once — no single operation (later transition or unrelated field
update) ever clears or changes a timestamp once it is set. -/
theorem timestamps_invariant (s0 : Shipment) (ops : List Op)
    (h0 : s0.status = Status.PENDING) (h1 : s0.shipped_at = none)
    (h2 : s0.delivered_at = none) :
    ((run s0 ops).shipped_at.isSome = everShipped s0 ops) ∧
    ((run s0 ops).delivered_at.isSome = everDelivered s0 ops) ∧
    (∀ (t : Shipment) (op : Op) (v : Nat),
      t.shipped_at = some v → (step t op).shipped_at = some v) ∧
    (∀ (t : Shipment) (op : Op) (v : Nat),
      t.delivered_at = some v → (step t op).delivered_at = some v) := by
  have hinv : tsInv s0 := by
    constructor
    · intro hr
      rw [h0] at hr
      exact absurd hr (by decide)
    · intro hd
      rw [h0] at hd
      exact absurd hd (by decide)
  obtain ⟨g1, g2, -⟩ := run_timestamps ops s0 hinv
  have hkeep : ∀ (t : Shipment) (op : Op),
      (∀ v, t.shipped_at = some v → (step t op).shipped_at = some v) ∧
      (∀ v, t.delivered_at = some v → (step t op).delivered_at = some v) := by
    intro t op
    cases op with
    | api r now =>
        cases hvu : viewUpdate now t r with
        | none => simp only [step, hvu]; exact ⟨fun _ hv => hv, fun _ hv => hv⟩
        | some res =>
            obtain ⟨hr1, -, -, -⟩ := viewUpdate_some now t r res hvu
            simp only [step, hvu]
            rw [hr1]
            simp only [applyUpdate]
            constructor
            · intro v hv
              exact (save_keeps_some now _).1 v hv
            · intro v hv
              exact (save_keeps_some now _).2 v hv
    | cancel now =>
        by_cases ha : isActiveStatus t.status = true
        · simp only [step]
          rw [if_pos ha]
          constructor
          · intro v hv
            exact (save_keeps_some now _).1 v hv
          · intro v hv
            exact (save_keeps_some now _).2 v hv
        · simp only [step]
          rw [if_neg ha]
          exact ⟨fun _ hv => hv, fun _ hv => hv⟩
  refine ⟨?_, ?_, ?_, ?_⟩
  · rw [g1, h1]
    simp
  · rw [g2, h2]
    simp
  · intro t op v hv
    exact (hkeep t op).1 v hv
  · intro t op v hv
    exact (hkeep t op).2 v hv

/-- A freshly created shipment row. -/
def shipFresh : Shipment :=
  { id := 10, order_id := 1, tracking_no := "TRK1010", carrier := "DHL",
    status := Status.PENDING, shipped_at := none, delivered_at := none,
    created_at := 0, shipping_address := "", estimated_delivery := none,
    actual_weight := none, notes := "" }

/-- A single accepted pickup update. -/
def opsPick : List Op := [Op.api reqPickedUp 5]

/-- Witness for C5: a fresh shipment updated to `PICKED_UP` has
`shipped_at` set, matching its trace having reached a shipped status. -/
theorem timestamps_invariant_witness :
    ((run shipFresh opsPick).shipped_at.isSome = everShipped shipFresh opsPick) ∧
    everShipped shipFresh opsPick = true :=
  ⟨(timestamps_invariant shipFresh opsPick rfl rfl rfl).1, by decide⟩

end ShipmentSvc
